import Mathlib

/-!
Shallow embedding of the `mpsc-next` channel library core
(`src/queue.rs`, `src/token.rs`, `src/rendezvous.rs`, `src/lib.rs`).

Conventions of the embedding:
* The spin lock of `Queue` is an explicit `Bool`; an operation that would
  spin forever on a held lock is modelled as returning `none`.
* Blocking waits consume an explicit list of externally observed states
  (the state of the shared data each time the condition variable hands
  control back); an empty list means the model ran out of observations
  while still blocked, encoded as `none`.
* A Rust `panic!` / failed `assert!` is modelled as `none`.
* Machine atomics (`compare_and_swap`, `swap`, `load`, `store`) become
  pure state transformers executed sequentially; where a claim is about
  interference between two atomic steps, the function takes an explicit
  interference parameter applied between the steps.
-/

namespace Mpsc

/-! ### Queue (src/queue.rs) -/

structure Queue (T : Type) where
  bounded : Option Nat
  lock : Bool
  v : List T
  deriving Repr, DecidableEq

/-- `Queue::unbounded` -/
def Queue.newUnbounded (T : Type) : Queue T :=
  { bounded := none, lock := false, v := [] }

/-- `Queue::bounded(capacity)` -/
def Queue.newBounded (T : Type) (capacity : Nat) : Queue T :=
  { bounded := some capacity, lock := false, v := [] }

/-- `Queue::push`.  `acquire_lock` spins while the lock is held, so a held
lock means the call never returns (`none`).  On the full-bounded path the
source does `return Err(value)` from inside the critical section, skipping
`release_lock`, so the lock stays `true` in the returned state. -/
def Queue.push (q : Queue T) (value : T) : Option (Except T Unit × Queue T) :=
  if q.lock then none
  else
    -- acquire_lock succeeded: lock := true
    match q.bounded with
    | some maxBuf =>
      if maxBuf ≤ q.v.length then
        -- early return Err(value); release_lock is NOT executed
        some (Except.error value, { q with lock := true })
      else
        some (Except.ok (), { q with lock := false, v := q.v ++ [value] })
    | none =>
        some (Except.ok (), { q with lock := false, v := q.v ++ [value] })

/-- `Queue::pop`: acquire, `pop_front`, release. -/
def Queue.pop (q : Queue T) : Option (Option T × Queue T) :=
  if q.lock then none
  else
    match q.v with
    | [] => some (none, { q with lock := false })
    | x :: rest => some (some x, { q with lock := false, v := rest })

/-! ### Token pair (src/token.rs)

Each `Inner` record holds `is_present` and the `woke` latch.  Record A is
written by the sender's signal half and read by the receiver's wait half
(`is_present` = sender alive, `woke` = latch waking the receiver); record
B is the mirror image. -/

structure TokenRecord where
  is_present : Bool
  woke : Bool
  deriving Repr, DecidableEq

structure TokenPair where
  recA : TokenRecord
  recB : TokenRecord
  deriving Repr, DecidableEq

/-- Both `is_present` flags true, both `woke` latches clear. -/
def TokenPair.init : TokenPair :=
  { recA := { is_present := true, woke := false }
    recB := { is_present := true, woke := false } }

/-- Sender-side `Token::wake`: sets record A's `woke` latch. -/
def TokenPair.wakeReceiver (t : TokenPair) : TokenPair :=
  { t with recA := { t.recA with woke := true } }

/-- Receiver-side `Token::wake`: sets record B's `woke` latch. -/
def TokenPair.wakeSender (t : TokenPair) : TokenPair :=
  { t with recB := { t.recB with woke := true } }

/-- One return of `Condvar::wait` inside `WaitToken::wait`: the re-observed
values of the `woke` latch and of the peer's `is_present` flag. -/
structure WaitObs where
  woke : Bool
  present : Bool
  deriving Repr, DecidableEq

/-- The `while !*woke && self.is_present()` loop of `WaitToken::wait`,
returning the `(woke, present)` pair at loop exit, or `none` when the
observation list is exhausted while still blocked. -/
def WaitToken.waitLoop (w p : Bool) : List WaitObs → Option (Bool × Bool)
  | [] => if !w && p then none else some (w, p)
  | o :: rest => if !w && p then WaitToken.waitLoop o.woke o.present rest else some (w, p)

/-- `WaitToken::wait`: run the loop, then execute `*woke = false` before
returning.  Result: the final `(woke, present)` of the record. -/
def WaitToken.wait (w p : Bool) (obs : List WaitObs) : Option (Bool × Bool) :=
  match WaitToken.waitLoop w p obs with
  | none => none
  | some (_, p') => some (false, p')

/-- One iteration of the `WaitToken::wait_until` loop: whether
`deadline.checked_duration_since(now)` returned `None` at the top, and the
`(woke, present, timed_out)` data produced by `Condvar::wait_timeout`. -/
structure TimedObs where
  pastDeadline : Bool
  woke : Bool
  present : Bool
  timedOut : Bool
  deriving Repr, DecidableEq

/-- The loop of `WaitToken::wait_until`, returning `(woke, present,
timed_out)` at the point the loop is left (by its condition or by one of
the two `break`s that set `timed_out = true`). -/
def WaitToken.waitUntilLoop (w p : Bool) : List TimedObs → Option (Bool × Bool × Bool)
  | [] => if !w && p then none else some (w, p, false)
  | o :: rest =>
    if !w && p then
      if o.pastDeadline then some (w, p, true)
      else if o.timedOut then some (o.woke, o.present, true)
      else WaitToken.waitUntilLoop o.woke o.present rest
    else some (w, p, false)

/-- `WaitToken::wait_until`: run the loop, then `if *woke { timed_out =
false }`, then `*woke = false`.  Result: `(returned timed_out, final woke,
final present)`. -/
def WaitToken.wait_until (w p : Bool) (obs : List TimedObs) : Option (Bool × Bool × Bool) :=
  match WaitToken.waitUntilLoop w p obs with
  | none => none
  | some (w', p', t) => some (if w' then false else t, false, p')

/-! ### Error types (src/lib.rs) -/

inductive TrySendError (T : Type) where
  | Full (value : T)
  | Disconnected (value : T)
  deriving Repr, DecidableEq

inductive TryRecvError where
  | Empty
  | Disconnected
  deriving Repr, DecidableEq

inductive RecvTimeoutError where
  | Timeout
  | Disconnected
  deriving Repr, DecidableEq

inductive RecvError where
  | mk
  deriving Repr, DecidableEq

/-! ### Buffered channel (src/lib.rs, `SenderInner` / `ReceiverInner`)

The shared state is the queue plus the two token records.  The receiver's
`is_present` reads record A; its `wake` sets record B. -/

structure BufChan (T : Type) where
  queue : Queue T
  tokens : TokenPair
  deriving Repr, DecidableEq

/-- `ReceiverInner::try_recv`.  The presence flag is snapshotted *before*
the pop; `mid` is the interference other threads may perform between the
snapshot and the pop (use `id` for an interference-free execution).
`none` means the pop spun forever on a held queue lock. -/
def ReceiverInner.try_recv (mid : BufChan T → BufChan T) (c : BufChan T) :
    Option (Except TryRecvError T × BufChan T) :=
  let present := c.tokens.recA.is_present
  let c1 := mid c
  match c1.queue.pop with
  | none => none
  | some (some value, q') =>
      -- successful read: wake up the sender
      some (Except.ok value, { c1 with queue := q', tokens := c1.tokens.wakeSender })
  | some (none, q') =>
      if present then some (Except.error TryRecvError.Empty, { c1 with queue := q' })
      else some (Except.error TryRecvError.Disconnected, { c1 with queue := q' })

/-- `SenderInner::try_send`: presence check first, then push, then wake. -/
def SenderInner.try_send (value : T) (c : BufChan T) :
    Option (Except (TrySendError T) Unit × BufChan T) :=
  if !c.tokens.recB.is_present then
    some (Except.error (TrySendError.Disconnected value), c)
  else
    match c.queue.push value with
    | none => none
    | some (Except.error ret, q') =>
        some (Except.error (TrySendError.Full ret), { c with queue := q' })
    | some (Except.ok _, q') =>
        some (Except.ok (), { c with queue := q', tokens := c.tokens.wakeReceiver })

/-! ### Rendezvous channel (src/rendezvous.rs) -/

namespace Rendezvous

def EMPTY : Nat := 0
def SENDER_AVAILABLE : Nat := 1
def RECEIVER_AVAILABLE : Nat := 2
def BOTH_AVAILABLE : Nat := 3
def SENDING : Nat := 4
def SENT : Nat := 5

/-- Shared rendezvous record plus the token pair of its two endpoints. -/
structure RChan (T : Type) where
  state : Nat
  place : Option T
  tokens : TokenPair
  deriving Repr, DecidableEq

/-- `AtomicU8::compare_and_swap(curr, new)`: returns the previously
observed value together with the updated record. -/
def casState (curr new : Nat) (c : RChan T) : Nat × RChan T :=
  (c.state, if c.state = curr then { c with state := new } else c)

/-- `Shared::put`: asserts the place is empty (`none` = panic), then
writes the value. -/
def Shared.put (value : T) (c : RChan T) : Option (RChan T) :=
  match c.place with
  | none => some { c with place := some value }
  | some _ => none

/-- `Shared::sender_ready`: CAS `RECEIVER_AVAILABLE → BOTH_AVAILABLE`,
succeeding iff the observed state was `RECEIVER_AVAILABLE`. -/
def Shared.sender_ready (c : RChan T) : Bool × RChan T :=
  let (old, c') := casState RECEIVER_AVAILABLE BOTH_AVAILABLE c
  (old == RECEIVER_AVAILABLE, c')

/-- `Shared::receiver_ready`: CAS `SENDER_AVAILABLE → BOTH_AVAILABLE`,
accepting any of the four listed observed states. -/
def Shared.receiver_ready (c : RChan T) : Bool × RChan T :=
  let (old, c') := casState SENDER_AVAILABLE BOTH_AVAILABLE c
  (old == SENDER_AVAILABLE || old == BOTH_AVAILABLE || old == SENT || old == SENDING, c')

/-- Sender-side `Token::wake` (wakes the receiver). -/
def senderWake (c : RChan T) : RChan T := { c with tokens := c.tokens.wakeReceiver }

/-- Receiver-side `Token::wake` (wakes a sender). -/
def receiverWake (c : RChan T) : RChan T := { c with tokens := c.tokens.wakeSender }

/-- `Sender::err`: classify a failure by the receiver's presence. -/
def Sender.err (value : T) (c : RChan T) : TrySendError T :=
  if c.tokens.recB.is_present then TrySendError.Full value
  else TrySendError.Disconnected value

/-- `Sender::try_send`.  `mid` is the interference other senders may
perform between the first CAS and the second (the source's "another
sender beat us" window); `none` models the `assert!` in `put` or the
`assert_eq!` after the swap panicking. -/
def Sender.try_send (mid : RChan T → RChan T) (value : T) (c : RChan T) :
    Option (Except (TrySendError T) Unit × RChan T) :=
  let (ready, c1) := Shared.sender_ready c
  if !ready then some (Except.error (Sender.err value c1), c1)
  else
    let c2 := mid c1
    let (old, c3) := casState BOTH_AVAILABLE SENDING c2
    if old ≠ BOTH_AVAILABLE then some (Except.error (Sender.err value c3), c3)
    else
      match Shared.put value c3 with
      | none => none
      | some c4 =>
        -- swap(state, SENT); assert_eq!(old, SENDING)
        let old2 := c4.state
        let c5 : RChan T := { c4 with state := SENT }
        if old2 ≠ SENDING then none
        else some (Except.ok (), senderWake c5)

/-- `Receiver::err`: classify by the sender side's presence. -/
def Receiver.errR (c : RChan T) : TryRecvError :=
  if c.tokens.recA.is_present then TryRecvError.Empty else TryRecvError.Disconnected

/-- `Receiver::try_recv`.  `none` models the
`panic!("value stolen from reader despite SENT state")` branch. -/
def Receiver.try_recv (c : RChan T) : Option (Except TryRecvError T × RChan T) :=
  let (ready, c1) := Shared.receiver_ready c
  if !ready then some (Except.error (Receiver.errR c1), c1)
  else
    if c1.state ≠ SENT then some (Except.error (Receiver.errR c1), c1)
    else
      match c1.place with
      | some value =>
          some (Except.ok value, receiverWake { c1 with place := none, state := EMPTY })
      | none => none

/-- Initial rendezvous channel: `EMPTY` state, empty place, fresh tokens. -/
def rchanInit (T : Type) : RChan T :=
  { state := EMPTY, place := none, tokens := TokenPair.init }

/-- The sequential atomic protocol steps on the shared rendezvous record:
the entry CAS of `Sender::send`, the entry CAS and disconnect-revert CAS
of `Receiver::recv`, whole `try_send` / `try_recv` calls, the `leave` of a
dropped endpoint and the `wake` / latch-clearing effects of the tokens. -/
inductive RStep {T : Type} : RChan T → RChan T → Prop where
  | sendEntry (c : RChan T) :
      RStep c (casState EMPTY SENDER_AVAILABLE c).2
  | recvEntry (c : RChan T) :
      RStep c (casState EMPTY RECEIVER_AVAILABLE c).2
  | recvRevert (c : RChan T) :
      RStep c (casState RECEIVER_AVAILABLE EMPTY c).2
  | trySend (value : T) (c : RChan T) (r : Except (TrySendError T) Unit)
      (c' : RChan T) (h : Sender.try_send id value c = some (r, c')) :
      RStep c c'
  | tryRecv (c : RChan T) (r : Except TryRecvError T) (c' : RChan T)
      (h : Receiver.try_recv c = some (r, c')) :
      RStep c c'
  | senderLeave (c : RChan T) (h : c.tokens.recA.is_present = true) :
      RStep c { c with tokens := { c.tokens with recA := { c.tokens.recA with is_present := false } } }
  | receiverLeave (c : RChan T) (h : c.tokens.recB.is_present = true) :
      RStep c { c with tokens := { c.tokens with recB := { c.tokens.recB with is_present := false } } }
  | senderWakes (c : RChan T) : RStep c (senderWake c)
  | receiverWakes (c : RChan T) : RStep c (receiverWake c)
  | receiverWaitClears (c : RChan T) :
      RStep c { c with tokens := { c.tokens with recA := { c.tokens.recA with woke := false } } }
  | senderWaitClears (c : RChan T) :
      RStep c { c with tokens := { c.tokens with recB := { c.tokens.recB with woke := false } } }

/-- States of the rendezvous record reachable from the freshly constructed
channel by protocol steps. -/
inductive RReachable {T : Type} : RChan T → Prop where
  | init : RReachable (rchanInit T)
  | step {c c' : RChan T} : RReachable c → RStep c c' → RReachable c'

/-- The place/state invariant of the rendezvous record: the place is
occupied only in the `SENDING` / `SENT` states, and in `SENT` it is
always occupied. -/
def RInv (c : RChan T) : Prop :=
  (c.place.isSome = true → c.state = SENDING ∨ c.state = SENT) ∧
  (c.state = SENT → c.place.isSome = true)

end Rendezvous

/-! ### Flavor dispatch (src/lib.rs, `Receiver` / `Receiver_`) -/

/-- `Receiver_`: the receiver is backed by either a buffered channel or a
rendezvous channel. -/
inductive ChanState (T : Type) where
  | normal (c : BufChan T)
  | rendezvous (c : Rendezvous.RChan T)
  deriving Repr, DecidableEq

/-- `Receiver::try_recv`: dispatch on the flavor. -/
def Receiver.try_recv : ChanState T → Option (Except TryRecvError T × ChanState T)
  | ChanState.normal c =>
      (ReceiverInner.try_recv id c).map (fun rc => (rc.1, ChanState.normal rc.2))
  | ChanState.rendezvous c =>
      (Rendezvous.Receiver.try_recv c).map (fun rc => (rc.1, ChanState.rendezvous rc.2))

/-- Outcome of one iteration of a blocking receive loop. -/
inductive RecvIter (T : Type) where
  | done (r : Except RecvError T) (c : ChanState T)
  | waits (c : ChanState T)
  deriving Repr

/-- One iteration of the flavor's `recv` loop body.  For the buffered
flavor (`ReceiverInner::recv`) this is a plain `try_recv`; for the
rendezvous flavor (`rendezvous::Receiver::recv`) it is the entry CAS
`EMPTY → RECEIVER_AVAILABLE`, then `try_recv`, with the disconnect branch
reverting `RECEIVER_AVAILABLE → EMPTY` and the empty branch doing `wake()`
before waiting.  `none` models a panic or spinning on a held lock. -/
def Receiver.recvIter : ChanState T → Option (RecvIter T)
  | ChanState.normal b =>
      match ReceiverInner.try_recv id b with
      | none => none
      | some (Except.ok v, b') => some (RecvIter.done (Except.ok v) (ChanState.normal b'))
      | some (Except.error TryRecvError.Disconnected, b') =>
          some (RecvIter.done (Except.error RecvError.mk) (ChanState.normal b'))
      | some (Except.error TryRecvError.Empty, b') => some (RecvIter.waits (ChanState.normal b'))
  | ChanState.rendezvous r =>
      let r0 := (Rendezvous.casState Rendezvous.EMPTY Rendezvous.RECEIVER_AVAILABLE r).2
      match Rendezvous.Receiver.try_recv r0 with
      | none => none
      | some (Except.ok v, r') => some (RecvIter.done (Except.ok v) (ChanState.rendezvous r'))
      | some (Except.error TryRecvError.Disconnected, r') =>
          some (RecvIter.done (Except.error RecvError.mk)
            (ChanState.rendezvous (Rendezvous.casState Rendezvous.RECEIVER_AVAILABLE Rendezvous.EMPTY r').2))
      | some (Except.error TryRecvError.Empty, r') =>
          some (RecvIter.waits (ChanState.rendezvous (Rendezvous.receiverWake r')))

/-- `Receiver::recv`: iterate the loop body; each `wait()` consumes one
externally observed channel state from `evs`. -/
def Receiver.recv : List (ChanState T) → ChanState T → Option (Except RecvError T × ChanState T)
  | [], c =>
      match Receiver.recvIter c with
      | some (RecvIter.done r c') => some (r, c')
      | _ => none
  | e :: rest, c =>
      match Receiver.recvIter c with
      | some (RecvIter.done r c') => some (r, c')
      | some (RecvIter.waits _) => Receiver.recv rest e
      | none => none

/-- `Receiver::recv_deadline`: as `recv`, but the waiting step is
`wait_until(deadline)`; each consumed event carries the post-wait channel
state and whether the wait reported a timeout, in which case the loop
returns `Timeout`.  For the rendezvous flavor the deadline loop is
modelled from the spec: `rendezvous::Receiver::recv_deadline` is invoked
from `Receiver::recv_deadline` but absent from the sources; per the spec
it is `recv` with the waiting step replaced by `wait_until(deadline)`. -/
def Receiver.recv_deadline : List (ChanState T × Bool) → ChanState T →
    Option (Except RecvTimeoutError T × ChanState T)
  | [], c =>
      match Receiver.recvIter c with
      | some (RecvIter.done (Except.ok v) c') => some (Except.ok v, c')
      | some (RecvIter.done (Except.error _) c') =>
          some (Except.error RecvTimeoutError.Disconnected, c')
      | _ => none
  | (e, timedOut) :: rest, c =>
      match Receiver.recvIter c with
      | some (RecvIter.done (Except.ok v) c') => some (Except.ok v, c')
      | some (RecvIter.done (Except.error _) c') =>
          some (Except.error RecvTimeoutError.Disconnected, c')
      | some (RecvIter.waits _) =>
          if timedOut then some (Except.error RecvTimeoutError.Timeout, e)
          else Receiver.recv_deadline rest e
      | none => none

/-- `Receiver::recv_timeout`: optimistic `try_recv` first; then compute
`Instant::now().checked_add(timeout)` — `oflow = true` models the `None`
(overflow) outcome, falling back to unbounded `recv` with `RecvError`
mapped to `Disconnected`; otherwise proceed with `recv_deadline`. -/
def Receiver.recv_timeout (oflow : Bool) (evs : List (ChanState T × Bool)) (c : ChanState T) :
    Option (Except RecvTimeoutError T × ChanState T) :=
  match Receiver.try_recv c with
  | none => none
  | some (Except.ok v, c') => some (Except.ok v, c')
  | some (Except.error TryRecvError.Disconnected, c') =>
      some (Except.error RecvTimeoutError.Disconnected, c')
  | some (Except.error TryRecvError.Empty, c') =>
      if oflow then
        (Receiver.recv (evs.map Prod.fst) c').map
          (fun rc => (rc.1.mapError (fun _ => RecvTimeoutError.Disconnected), rc.2))
      else
        Receiver.recv_deadline evs c'

/-! ### Theorems -/

/-- C1: the claim states that `push(v)` on a full bounded queue returns
`Err(v)` with the buffer unchanged and the queue's lock released, so that
subsequent operations can proceed.  The code violates the last part: the
`return Err(value)` exits the critical section without running
`release_lock`, so the lock stays held and every later `push` or `pop`
spins forever.  Evaluated here at a bounded queue of capacity 1 holding
one item. -/
theorem C1_push_full_leaves_lock_held :
    Queue.push { bounded := some 1, lock := false, v := [0] } (7 : Nat) =
      some (Except.error 7, { bounded := some 1, lock := true, v := [0] }) ∧
    Queue.pop ({ bounded := some 1, lock := true, v := [0] } : Queue Nat) = none ∧
    Queue.push ({ bounded := some 1, lock := true, v := [0] } : Queue Nat) 8 = none := by
  refine ⟨rfl, rfl, rfl⟩

/-- C8: for a queue constructed with capacity `k > 0`, the invariant
`|buffer| ≤ k` is preserved by every `push` and `pop`, and `push` appends
only when the length is strictly below `k`. -/
theorem C8_capacity_bound_preserved {T : Type} (q : Queue T) (k : Nat) (value : T)
    (hk : 0 < k) (hb : q.bounded = some k) (hlen : q.v.length ≤ k) :
    (∀ r q', q.push value = some (r, q') → q'.v.length ≤ k) ∧
    (∀ q', q.push value = some (Except.ok (), q') → q.v.length < k) ∧
    (∀ r q', q.pop = some (r, q') → q'.v.length ≤ k) := by
  refine ⟨?_, ?_, ?_⟩
  · intro r q' h
    by_cases hl : q.lock
    · simp [Queue.push, hl] at h
    · simp [Queue.push, hl, hb] at h
      by_cases hfull : k ≤ q.v.length
      · simp [hfull] at h
        obtain ⟨-, rfl⟩ := h
        simpa using hlen
      · simp [hfull] at h
        obtain ⟨-, rfl⟩ := h
        simpa using Nat.lt_of_not_le hfull
  · intro q' h
    by_cases hl : q.lock
    · simp [Queue.push, hl] at h
    · simp [Queue.push, hl, hb] at h
      by_cases hfull : k ≤ q.v.length
      · simp [hfull] at h
      · exact Nat.lt_of_not_le hfull
  · intro r q' h
    by_cases hl : q.lock
    · simp [Queue.pop, hl] at h
    · cases hv : q.v with
      | nil =>
        simp [Queue.pop, hl, hv] at h
        obtain ⟨-, rfl⟩ := h
        simpa [hv] using hlen
      | cons x rest =>
        simp [Queue.pop, hl, hv] at h
        obtain ⟨-, rfl⟩ := h
        have : rest.length + 1 ≤ k := by simpa [hv] using hlen
        simpa using Nat.le_of_succ_le this

/-- C8 witness: the bound is preserved on a concrete capacity-2 queue
holding one element. -/
theorem C8_capacity_bound_preserved_witness :
    (0 < 2 ∧ (Queue.mk (some 2) false [10] : Queue Nat).bounded = some 2 ∧
      (Queue.mk (some 2) false [10] : Queue Nat).v.length ≤ 2) ∧
    ((∀ r q', (Queue.mk (some 2) false [10] : Queue Nat).push 11 = some (r, q') →
        q'.v.length ≤ 2) ∧
     (∀ q', (Queue.mk (some 2) false [10] : Queue Nat).push 11 = some (Except.ok (), q') →
        (Queue.mk (some 2) false [10] : Queue Nat).v.length < 2) ∧
     (∀ r q', (Queue.mk (some 2) false [10] : Queue Nat).pop = some (r, q') →
        q'.v.length ≤ 2)) :=
  ⟨⟨by decide, by decide, by decide⟩,
    C8_capacity_bound_preserved (Queue.mk (some 2) false [10]) 2 11
      (by decide) (by decide) (by decide)⟩

/-- C9: a push on an unbounded queue (constructed with `bounded = none`)
always returns `Ok` and appends the value; `push` returns `Err` only when
the queue has a capacity and the buffer has reached it, and the error
carries the pushed value back. -/
theorem C9_unbounded_push_ok {T : Type} (q : Queue T) (value : T) :
    (q.bounded = none → ∀ r q', q.push value = some (r, q') →
      r = Except.ok () ∧ q'.v = q.v ++ [value]) ∧
    (∀ e q', q.push value = some (Except.error e, q') →
      e = value ∧ ∃ k, q.bounded = some k ∧ k ≤ q.v.length) := by
  constructor
  · intro hb r q' h
    by_cases hl : q.lock
    · simp [Queue.push, hl] at h
    · simp [Queue.push, hl, hb] at h
      obtain ⟨rfl, rfl⟩ := h
      exact ⟨rfl, rfl⟩
  · intro e q' h
    by_cases hl : q.lock
    · simp [Queue.push, hl] at h
    · cases hb : q.bounded with
      | none =>
        simp [Queue.push, hl, hb] at h
      | some k =>
        simp [Queue.push, hl, hb] at h
        by_cases hfull : k ≤ q.v.length
        · simp [hfull] at h
          exact ⟨h.1.symm, k, rfl, hfull⟩
        · simp [hfull] at h

/-- C9 witness: concrete unbounded push succeeds; concrete full bounded
push reports the capacity reached. -/
theorem C9_unbounded_push_ok_witness :
    ((Queue.mk none false [1] : Queue Nat).bounded = none ∧
      (Except.ok () : Except Nat Unit) = Except.ok () ∧ [1, 2] = [1] ++ [2]) ∧
    ((7 : Nat) = 7 ∧ ∃ k, (Queue.mk (some 1) false [9] : Queue Nat).bounded = some k ∧
      k ≤ (Queue.mk (some 1) false [9] : Queue Nat).v.length) := by
  constructor
  · refine ⟨by decide, ?_⟩
    have h := (C9_unbounded_push_ok (Queue.mk none false [1]) (2 : Nat)).1 (by decide)
      (Except.ok ()) (Queue.mk none false [1, 2]) rfl
    simpa using h
  · exact (C9_unbounded_push_ok (Queue.mk (some 1) false [9]) (7 : Nat)).2 7
      (Queue.mk (some 1) true [9]) rfl

/-- C3: `try_recv` snapshots the peer-presence flag before popping
(`mid` is arbitrary interference between the snapshot and the pop): a
successful pop wakes the receiver's own endpoint (record B, freeing a
blocked sender) and returns `Ok(v)`; an empty pop is classified by the
pre-pop snapshot — `Empty` when the sender was present, `Disconnected`
otherwise. -/
theorem C3_try_recv_snapshot_order {T : Type} (mid : BufChan T → BufChan T) (c : BufChan T) :
    (∀ v q', (mid c).queue.pop = some (some v, q') →
      ReceiverInner.try_recv mid c =
        some (Except.ok v, { mid c with queue := q', tokens := (mid c).tokens.wakeSender })) ∧
    (∀ q', (mid c).queue.pop = some (none, q') →
      ReceiverInner.try_recv mid c =
        some (Except.error
          (if c.tokens.recA.is_present then TryRecvError.Empty else TryRecvError.Disconnected),
          { mid c with queue := q' })) := by
  constructor
  · intro v q' h
    simp [ReceiverInner.try_recv, h]
  · intro q' h
    by_cases hp : c.tokens.recA.is_present
    · simp [ReceiverInner.try_recv, h, hp]
    · simp [ReceiverInner.try_recv, h, hp]

/-- C3 witness: a one-element queue yields `Ok 4` and wakes the sender;
an empty queue with a departed sender yields `Disconnected`. -/
theorem C3_try_recv_snapshot_order_witness :
    (ReceiverInner.try_recv id (BufChan.mk (Queue.mk none false [4]) TokenPair.init) =
      some (Except.ok 4,
        BufChan.mk (Queue.mk none false [])
          (TokenPair.mk (TokenRecord.mk true false) (TokenRecord.mk true true)))) ∧
    (ReceiverInner.try_recv id
        (BufChan.mk (Queue.mk none false ([] : List Nat))
          (TokenPair.mk (TokenRecord.mk false false) (TokenRecord.mk true false))) =
      some (Except.error TryRecvError.Disconnected,
        BufChan.mk (Queue.mk none false [])
          (TokenPair.mk (TokenRecord.mk false false) (TokenRecord.mk true false)))) := by
  constructor
  · have h := (C3_try_recv_snapshot_order id
      (BufChan.mk (Queue.mk none false [4]) TokenPair.init)).1 4
      (Queue.mk none false []) rfl
    simpa [TokenPair.init, TokenPair.wakeSender] using h
  · have h := (C3_try_recv_snapshot_order id
      (BufChan.mk (Queue.mk none false ([] : List Nat))
        (TokenPair.mk (TokenRecord.mk false false) (TokenRecord.mk true false)))).2
      (Queue.mk none false []) rfl
    simpa using h

/-- C2 counterexample: the claim says the untimed `wait()` leaves the
`woke` latch unchanged on return, but on a record whose latch is set the
call returns with the latch cleared (`*woke = false` runs on every exit
of `WaitToken::wait`). -/
theorem C2_wait_changes_woke_counterexample :
    WaitToken.wait true true [] = some (false, true) ∧ (false : Bool) ≠ true :=
  ⟨rfl, by decide⟩

/-- C2 (amended): *both* the untimed `wait()` and the timed `wait_until`
clear the `woke` latch before returning. -/
theorem C2_wait_clears_woke (w p : Bool) (obs : List WaitObs) (tobs : List TimedObs) :
    (∀ res, WaitToken.wait w p obs = some res → res.1 = false) ∧
    (∀ res, WaitToken.wait_until w p tobs = some res → res.2.1 = false) := by
  constructor
  · intro res h
    unfold WaitToken.wait at h
    cases hl : WaitToken.waitLoop w p obs with
    | none => rw [hl] at h; exact absurd h (by simp)
    | some pr =>
      rw [hl] at h
      obtain ⟨w', p'⟩ := pr
      simp at h
      rw [← h]
  · intro res h
    unfold WaitToken.wait_until at h
    cases hl : WaitToken.waitUntilLoop w p tobs with
    | none => rw [hl] at h; exact absurd h (by simp)
    | some tr =>
      rw [hl] at h
      obtain ⟨w', p', t⟩ := tr
      simp at h
      rw [← h]

/-- C2 witness: concrete runs of `wait` and `wait_until` end with the
latch cleared. -/
theorem C2_wait_clears_woke_witness :
    (WaitToken.wait true true [] = some (false, true) ∧
      ((false, true) : Bool × Bool).1 = false) ∧
    (WaitToken.wait_until true true [] = some (false, false, true) ∧
      ((false, false, true) : Bool × Bool × Bool).2.1 = false) :=
  ⟨⟨by decide, (C2_wait_clears_woke true true [] []).1 (false, true) (by decide)⟩,
   ⟨by decide, (C2_wait_clears_woke true true [] []).2 (false, false, true) (by decide)⟩⟩

/-- Helper: a `wait_until` loop can only report a timeout when it started
still blocked (latch clear, peer present). -/
theorem waitUntilLoop_timeout_start (w p : Bool) (obs : List TimedObs) (w' p' : Bool)
    (h : WaitToken.waitUntilLoop w p obs = some (w', p', true)) :
    w = false ∧ p = true := by
  cases obs with
  | nil =>
    unfold WaitToken.waitUntilLoop at h
    by_cases hc : (!w && p) = true
    · simp [hc] at h
    · simp [hc] at h
  | cons o rest =>
    unfold WaitToken.waitUntilLoop at h
    by_cases hc : (!w && p) = true
    · simp at hc
      exact ⟨by simp [hc.1], hc.2⟩
    · simp [hc] at h

/-- C5: `wait_until` returns `true` exactly when the run timed out — the
loop was abandoned through one of the deadline breaks with the `woke`
latch still clear at that point; in particular a set latch at exit forces
`false` even when a deadline break fired, and a `true` result implies the
call started neither woken nor peer-departed. -/
theorem C5_wait_until_timeout_iff (w p : Bool) (obs : List TimedObs) (res wf pf : Bool)
    (h : WaitToken.wait_until w p obs = some (res, wf, pf)) :
    (res = true ↔ ∃ w' p',
      WaitToken.waitUntilLoop w p obs = some (w', p', true) ∧ w' = false) ∧
    (∀ w' p' t, WaitToken.waitUntilLoop w p obs = some (w', p', t) → w' = true →
      res = false) ∧
    (res = true → w = false ∧ p = true) := by
  have hex : ∃ w' p' t, WaitToken.waitUntilLoop w p obs = some (w', p', t) := by
    unfold WaitToken.wait_until at h
    cases hlc : WaitToken.waitUntilLoop w p obs with
    | none => rw [hlc] at h; exact absurd h (by simp)
    | some tr =>
      exact ⟨tr.1, tr.2.1, tr.2.2, rfl⟩
  obtain ⟨w', p', t, hl⟩ := hex
  unfold WaitToken.wait_until at h
  rw [hl, Option.some.injEq, Prod.mk.injEq, Prod.mk.injEq] at h
  obtain ⟨hres, hwf, hpf⟩ := h
  have hres2 : res = (!w' && t) := by rw [← hres]; cases w' <;> simp
  rw [hres2]
  refine ⟨?_, ?_, ?_⟩
  · constructor
    · intro hr
      simp only [Bool.and_eq_true, Bool.not_eq_true'] at hr
      rw [hr.1, hr.2] at hl
      exact ⟨false, p', hl, rfl⟩
    · rintro ⟨w'', p'', hl', hw''⟩
      rw [hl, Option.some.injEq, Prod.mk.injEq, Prod.mk.injEq] at hl'
      simp [hl'.1, hw'', hl'.2.2]
  · intro w'' p'' t' hl' hw''
    rw [hl, Option.some.injEq, Prod.mk.injEq, Prod.mk.injEq] at hl'
    simp [hl'.1, hw'']
  · intro hr
    simp only [Bool.and_eq_true, Bool.not_eq_true'] at hr
    rw [hr.1, hr.2] at hl
    exact waitUntilLoop_timeout_start w p obs false p' hl

/-- C5 witness: a run whose first observation is already past the
deadline with a clear latch returns `true`; the accompanying facts are
the theorem's conclusion at that input. -/
theorem C5_wait_until_timeout_iff_witness :
    (WaitToken.wait_until false true [TimedObs.mk true false true false] =
      some (true, false, true)) ∧
    ((true = true ↔ ∃ w' p',
      WaitToken.waitUntilLoop false true [TimedObs.mk true false true false] =
        some (w', p', true) ∧ w' = false) ∧
     (∀ w' p' t,
        WaitToken.waitUntilLoop false true [TimedObs.mk true false true false] =
          some (w', p', t) → w' = true → true = false) ∧
     (true = true → false = false ∧ true = true)) :=
  ⟨by decide,
    C5_wait_until_timeout_iff false true [TimedObs.mk true false true false]
      true false true (by decide)⟩

open Rendezvous

/-- C4: the rendezvous `try_send(v)` first CASes
`RECEIVER_AVAILABLE → BOTH_AVAILABLE` — on failure returning `Full(v)`
when the peer is present and `Disconnected(v)` otherwise, with the record
untouched — then CASes `BOTH_AVAILABLE → SENDING` (failure, e.g. another
sender acting in the `mid` window, classified the same way), and on
winning both CASes puts `v` into the empty place, swaps the state to
`SENT` (the swap observing `SENDING`, so the assertion holds and no panic
occurs), wakes the receiver and returns `Ok`. -/
theorem C4_rendezvous_try_send {T : Type} (mid : RChan T → RChan T) (value : T) (c : RChan T) :
    (c.state ≠ RECEIVER_AVAILABLE →
      Sender.try_send mid value c =
        some (Except.error (if c.tokens.recB.is_present then TrySendError.Full value
          else TrySendError.Disconnected value), c)) ∧
    (c.state = RECEIVER_AVAILABLE →
      ((mid { c with state := BOTH_AVAILABLE }).state ≠ BOTH_AVAILABLE →
        Sender.try_send mid value c =
          some (Except.error
            (if (mid { c with state := BOTH_AVAILABLE }).tokens.recB.is_present
              then TrySendError.Full value else TrySendError.Disconnected value),
            mid { c with state := BOTH_AVAILABLE })) ∧
      ((mid { c with state := BOTH_AVAILABLE }).state = BOTH_AVAILABLE →
       (mid { c with state := BOTH_AVAILABLE }).place = none →
        Sender.try_send mid value c =
          some (Except.ok (),
            senderWake { mid { c with state := BOTH_AVAILABLE } with
              state := SENT, place := some value }))) := by
  refine ⟨?_, ?_⟩
  · intro hne
    have hb : (c.state == RECEIVER_AVAILABLE) = false := by simpa using hne
    simp [Sender.try_send, Shared.sender_ready, casState, hne, hb, Sender.err]
  · intro he
    have hb : (c.state == RECEIVER_AVAILABLE) = true := by simpa using he
    refine ⟨?_, ?_⟩
    · intro hne2
      simp [Sender.try_send, Shared.sender_ready, casState, he, hb, hne2, Sender.err]
    · intro he2 hplace
      simp [Sender.try_send, Shared.sender_ready, casState, he, hb, he2, hplace,
        Shared.put, SENDING, SENT, senderWake]

/-- C4 witness: with no interference, a sender meeting a waiting receiver
deposits 42, moves the state to `SENT` and wakes the receiver. -/
theorem C4_rendezvous_try_send_witness :
    Sender.try_send id 42 (RChan.mk RECEIVER_AVAILABLE none TokenPair.init) =
      some (Except.ok (),
        RChan.mk SENT (some 42)
          (TokenPair.mk (TokenRecord.mk true true) (TokenRecord.mk true false))) := by
  have h := ((C4_rendezvous_try_send id 42
    (RChan.mk RECEIVER_AVAILABLE none TokenPair.init)).2 rfl).2 rfl rfl
  simpa [senderWake, TokenPair.wakeReceiver, TokenPair.init] using h

/-- Helper: the freshly constructed rendezvous channel satisfies the
place/state invariant. -/
theorem rinv_init {T : Type} : RInv (rchanInit T) := by
  constructor
  · intro h; simp [rchanInit] at h
  · intro h; simp [rchanInit, EMPTY, SENT] at h

/-- Helper: a CAS whose source state is neither `SENDING` nor `SENT` and
whose target is not `SENT` preserves the invariant. -/
theorem rinv_cas {T : Type} (c : RChan T) (a b : Nat) (hinv : RInv c)
    (ha1 : a ≠ SENDING) (ha2 : a ≠ SENT) (hb : b ≠ SENT) :
    RInv (casState a b c).2 := by
  by_cases hs : c.state = a
  · constructor
    · intro hp
      have := hinv.1 (by simpa [casState, hs] using hp)
      rw [hs] at this
      rcases this with h1 | h1
      · exact absurd h1 ha1
      · exact absurd h1 ha2
    · intro hst
      simp [casState, hs] at hst
      exact absurd hst hb
  · simpa [casState, hs] using hinv

/-- Helper: an interference-free `try_send` preserves the invariant. -/
theorem rinv_trySend {T : Type} {value : T} {c : RChan T}
    {r : Except (TrySendError T) Unit} {c' : RChan T}
    (h : Sender.try_send id value c = some (r, c')) (hinv : RInv c) : RInv c' := by
  by_cases hs : c.state = RECEIVER_AVAILABLE
  · have hplace : c.place = none := by
      cases hp : c.place with
      | none => rfl
      | some x =>
        have h1 := hinv.1 (by simp [hp])
        rw [hs] at h1
        rcases h1 with h1 | h1 <;>
          simp [RECEIVER_AVAILABLE, SENDING, SENT] at h1
    have hb : (c.state == RECEIVER_AVAILABLE) = true := by simpa using hs
    simp [Sender.try_send, Shared.sender_ready, casState, hs, hb, hplace, Shared.put,
      senderWake, BOTH_AVAILABLE, SENDING, SENT] at h
    rw [← h.2]
    constructor
    · intro _; right; rfl
    · intro _; simp
  · have hb : (c.state == RECEIVER_AVAILABLE) = false := by simpa using hs
    simp [Sender.try_send, Shared.sender_ready, casState, hs, hb] at h
    rw [← h.2]
    exact hinv

/-- Helper: `try_recv` preserves the invariant. -/
theorem rinv_tryRecv {T : Type} {c : RChan T}
    {r : Except TryRecvError T} {c' : RChan T}
    (h : Rendezvous.Receiver.try_recv c = some (r, c')) (hinv : RInv c) : RInv c' := by
  by_cases hs : c.state = SENDER_AVAILABLE
  · have hb : (c.state == SENDER_AVAILABLE) = true := by simpa using hs
    have hplace : c.place = none := by
      cases hp : c.place with
      | none => rfl
      | some x =>
        have h1 := hinv.1 (by simp [hp])
        rw [hs] at h1
        rcases h1 with h1 | h1 <;>
          simp [SENDER_AVAILABLE, SENDING, SENT] at h1
    simp [Rendezvous.Receiver.try_recv, Shared.receiver_ready, casState, hs, hb,
      BOTH_AVAILABLE, SENT] at h
    rw [← h.2]
    constructor
    · intro hp
      exact absurd (by simpa using hp) (by simp [hplace])
    · intro hst; simp [BOTH_AVAILABLE, SENT] at hst
  · have hb : (c.state == SENDER_AVAILABLE) = false := by simpa using hs
    by_cases hsent : c.state = SENT
    · have hpl := hinv.2 hsent
      cases hp : c.place with
      | none => rw [hp] at hpl; simp at hpl
      | some v =>
        have hb2 : (c.state == SENT) = true := by simpa using hsent
        simp [Rendezvous.Receiver.try_recv, Shared.receiver_ready, casState, hs, hb, hb2,
          hsent, hp, receiverWake, EMPTY, SENDER_AVAILABLE, RECEIVER_AVAILABLE,
          BOTH_AVAILABLE, SENDING, SENT] at h
        rw [← h.2]
        constructor
        · intro hq; simp at hq
        · intro hst; simp [EMPTY, SENT] at hst
    · -- neither SENDER_AVAILABLE nor SENT: only error paths, record unchanged
      have hb2 : (c.state == SENT) = false := by simpa using hsent
      unfold Rendezvous.Receiver.try_recv Shared.receiver_ready casState at h
      simp only [hs, if_false, hb] at h
      by_cases hr : (c.state == BOTH_AVAILABLE || c.state == SENT || c.state == SENDING) = true
      · simp [hr, hsent] at h
        rw [← h.2]
        exact hinv
      · simp [Bool.or_assoc, hr] at h
        rw [← h.2]
        exact hinv

/-- Helper: every protocol step preserves the invariant. -/
theorem rstep_rinv {T : Type} {c c' : RChan T} (h : RStep c c') (hinv : RInv c) :
    RInv c' := by
  cases h with
  | sendEntry c =>
    exact rinv_cas c EMPTY SENDER_AVAILABLE hinv (by decide) (by decide) (by decide)
  | recvEntry c =>
    exact rinv_cas c EMPTY RECEIVER_AVAILABLE hinv (by decide) (by decide) (by decide)
  | recvRevert c =>
    exact rinv_cas c RECEIVER_AVAILABLE EMPTY hinv (by decide) (by decide) (by decide)
  | trySend value c r c' hts => exact rinv_trySend hts hinv
  | tryRecv c r c' htr => exact rinv_tryRecv htr hinv
  | senderLeave c hp => exact hinv
  | receiverLeave c hp => exact hinv
  | senderWakes c => exact hinv
  | receiverWakes c => exact hinv
  | receiverWaitClears c => exact hinv
  | senderWaitClears c => exact hinv

/-- Helper: every reachable rendezvous record satisfies the invariant. -/
theorem rreachable_rinv {T : Type} {c : RChan T} (h : RReachable c) : RInv c := by
  induction h with
  | init => exact rinv_init
  | step h1 h2 ih => exact rstep_rinv h2 ih

/-- Helper: under the invariant `try_recv` never reaches the
`panic!` branch. -/
theorem rtry_recv_no_panic {T : Type} {c : RChan T} (hinv : RInv c) :
    Rendezvous.Receiver.try_recv c ≠ none := by
  by_cases hs : c.state = SENDER_AVAILABLE
  · have hb : (c.state == SENDER_AVAILABLE) = true := by simpa using hs
    simp [Rendezvous.Receiver.try_recv, Shared.receiver_ready, casState, hs, hb,
      BOTH_AVAILABLE, SENT]
  · have hb : (c.state == SENDER_AVAILABLE) = false := by simpa using hs
    by_cases hsent : c.state = SENT
    · have hpl := hinv.2 hsent
      cases hp : c.place with
      | none => rw [hp] at hpl; simp at hpl
      | some v =>
        have hb2 : (c.state == SENT) = true := by simpa using hsent
        simp [Rendezvous.Receiver.try_recv, Shared.receiver_ready, casState, hs, hb, hb2,
          hsent, hp, EMPTY, SENDER_AVAILABLE, RECEIVER_AVAILABLE, BOTH_AVAILABLE,
          SENDING, SENT]
    · have hb2 : (c.state == SENT) = false := by simpa using hsent
      unfold Rendezvous.Receiver.try_recv Shared.receiver_ready casState
      simp only [hs, if_false, hb]
      by_cases hr : (c.state == BOTH_AVAILABLE || c.state == SENT || c.state == SENDING) = true
      · simp [hr, hsent]
      · simp [Bool.or_assoc, hr]

/-- C6: in every reachable rendezvous record, `SENT` implies the place
holds a value, the place is occupied only in `SENDING` / `SENT`, and
therefore `try_recv` never takes the abort branch reserved for an empty
place in the `SENT` state. -/
theorem C6_sent_place_never_aborts {T : Type} (c : RChan T) (h : RReachable c) :
    (c.state = SENT → ∃ v, c.place = some v) ∧
    (∀ v, c.place = some v → c.state = SENDING ∨ c.state = SENT) ∧
    Rendezvous.Receiver.try_recv c ≠ none := by
  have hinv := rreachable_rinv h
  refine ⟨?_, ?_, rtry_recv_no_panic hinv⟩
  · intro hs
    have hp := hinv.2 hs
    cases hpl : c.place with
    | none => rw [hpl] at hp; simp at hp
    | some v => exact ⟨v, rfl⟩
  · intro v hp
    exact hinv.1 (by simp [hp])

/-- C6 witness: the record reached by `recv` entering
(`EMPTY → RECEIVER_AVAILABLE`) followed by a successful `try_send 42` is
in the `SENT` state with the place occupied, and `try_recv` on it does
not abort. -/
theorem C6_sent_place_never_aborts_witness :
    ((RChan.mk SENT (some 42)
        (TokenPair.mk (TokenRecord.mk true true) (TokenRecord.mk true false))).state = SENT →
      ∃ v, (RChan.mk SENT (some 42)
        (TokenPair.mk (TokenRecord.mk true true) (TokenRecord.mk true false))).place = some v) ∧
    (∀ v, (RChan.mk SENT (some 42)
        (TokenPair.mk (TokenRecord.mk true true) (TokenRecord.mk true false))).place = some v →
      (RChan.mk SENT (some 42)
        (TokenPair.mk (TokenRecord.mk true true) (TokenRecord.mk true false))).state = SENDING ∨
      (RChan.mk SENT (some 42)
        (TokenPair.mk (TokenRecord.mk true true) (TokenRecord.mk true false))).state = SENT) ∧
    Rendezvous.Receiver.try_recv
      (RChan.mk SENT (some 42)
        (TokenPair.mk (TokenRecord.mk true true) (TokenRecord.mk true false))) ≠ none :=
  C6_sent_place_never_aborts
    (RChan.mk SENT (some 42)
      (TokenPair.mk (TokenRecord.mk true true) (TokenRecord.mk true false)))
    (RReachable.step (RReachable.step RReachable.init (RStep.recvEntry (rchanInit Nat)))
      (RStep.trySend 42 (RChan.mk RECEIVER_AVAILABLE none TokenPair.init)
        (Except.ok ())
        (RChan.mk SENT (some 42)
          (TokenPair.mk (TokenRecord.mk true true) (TokenRecord.mk true false)))
        rfl))

/-- C7: for every flavor (buffered state or rendezvous state alike),
`recv_timeout` / `recv_deadline` return only `Ok(v)`, `Timeout` or
`Disconnected`; and when adding the finite timeout to the current instant
overflows (`oflow = true`), `recv_timeout` falls back to the unbounded
`recv`, mapping its disconnection error to `Disconnected` — hence it
never reports `Timeout`. -/
theorem C7_recv_timeout_overflow_fallback {T : Type} (c : ChanState T)
    (evs : List (ChanState T × Bool)) :
    (∀ r c2, Receiver.recv_timeout true evs c = some (r, c2) →
      r ≠ Except.error RecvTimeoutError.Timeout ∧
      ((∃ v, r = Except.ok v) ∨ r = Except.error RecvTimeoutError.Disconnected)) ∧
    (∀ c1, Receiver.try_recv c = some (Except.error TryRecvError.Empty, c1) →
      Receiver.recv_timeout true evs c =
        (Receiver.recv (evs.map Prod.fst) c1).map
          (fun rc => (rc.1.mapError (fun _ => RecvTimeoutError.Disconnected), rc.2))) ∧
    (∀ dls r c2, Receiver.recv_deadline dls c = some (r, c2) →
      (∃ v, r = Except.ok v) ∨ r = Except.error RecvTimeoutError.Timeout ∨
        r = Except.error RecvTimeoutError.Disconnected) := by
  refine ⟨?_, ?_, ?_⟩
  · intro r c2 h
    unfold Receiver.recv_timeout at h
    cases htr : Receiver.try_recv c with
    | none => rw [htr] at h; exact absurd h (by simp)
    | some rc =>
      obtain ⟨rr, c1⟩ := rc
      rw [htr] at h
      match rr with
      | Except.ok v =>
        simp at h
        exact ⟨by rw [← h.1]; simp, Or.inl ⟨v, h.1.symm⟩⟩
      | Except.error TryRecvError.Disconnected =>
        simp at h
        exact ⟨by rw [← h.1]; simp, Or.inr h.1.symm⟩
      | Except.error TryRecvError.Empty =>
        simp at h
        cases hrec : Receiver.recv (evs.map Prod.fst) c1 with
        | none => rw [hrec] at h; exact absurd h (by simp)
        | some rc2 =>
          obtain ⟨res, cst⟩ := rc2
          rw [hrec] at h
          simp at h
          cases res with
          | ok v =>
            obtain ⟨a, ⟨ha, hc⟩, hr⟩ := h
            rw [← ha] at hr
            simp [Except.mapError] at hr
            exact ⟨by rw [← hr]; simp, Or.inl ⟨v, hr.symm⟩⟩
          | error e =>
            obtain ⟨a, ⟨ha, hc⟩, hr⟩ := h
            rw [← ha] at hr
            simp [Except.mapError] at hr
            exact ⟨by rw [← hr]; simp, Or.inr hr.symm⟩
  · intro c1 htr
    unfold Receiver.recv_timeout
    rw [htr]
    rfl
  · intro dls r c2 h
    cases r with
    | ok v => exact Or.inl ⟨v, rfl⟩
    | error e =>
      cases e with
      | Timeout => exact Or.inr (Or.inl rfl)
      | Disconnected => exact Or.inr (Or.inr rfl)

/-- C7 witness: concrete evaluations for each clause — a disconnected
buffered receiver under an overflowed deadline computation, an empty but
connected receiver whose overflow fallback agrees with `recv`, and a
`recv_deadline` outcome. -/
theorem C7_recv_timeout_overflow_fallback_witness :
    (Receiver.recv_timeout true []
        (ChanState.normal (BufChan.mk (Queue.mk none false ([] : List Nat))
          (TokenPair.mk (TokenRecord.mk false false) (TokenRecord.mk true false)))) =
      some (Except.error RecvTimeoutError.Disconnected,
        ChanState.normal (BufChan.mk (Queue.mk none false [])
          (TokenPair.mk (TokenRecord.mk false false) (TokenRecord.mk true false)))) ∧
      (Except.error RecvTimeoutError.Disconnected ≠
          (Except.error RecvTimeoutError.Timeout : Except RecvTimeoutError Nat) ∧
        ((∃ v, (Except.error RecvTimeoutError.Disconnected : Except RecvTimeoutError Nat) =
            Except.ok v) ∨
          (Except.error RecvTimeoutError.Disconnected : Except RecvTimeoutError Nat) =
            Except.error RecvTimeoutError.Disconnected))) ∧
    (Receiver.try_recv (ChanState.normal (BufChan.mk (Queue.mk none false ([] : List Nat))
        TokenPair.init)) =
      some (Except.error TryRecvError.Empty,
        ChanState.normal (BufChan.mk (Queue.mk none false []) TokenPair.init)) ∧
      Receiver.recv_timeout true []
        (ChanState.normal (BufChan.mk (Queue.mk none false ([] : List Nat)) TokenPair.init)) =
        (Receiver.recv (List.map Prod.fst ([] : List (ChanState Nat × Bool)))
          (ChanState.normal (BufChan.mk (Queue.mk none false []) TokenPair.init))).map
            (fun rc => (rc.1.mapError (fun _ => RecvTimeoutError.Disconnected), rc.2))) := by
  constructor
  · refine ⟨rfl, ?_⟩
    exact (C7_recv_timeout_overflow_fallback
      (ChanState.normal (BufChan.mk (Queue.mk none false ([] : List Nat))
        (TokenPair.mk (TokenRecord.mk false false) (TokenRecord.mk true false)))) []).1
      (Except.error RecvTimeoutError.Disconnected)
      (ChanState.normal (BufChan.mk (Queue.mk none false [])
        (TokenPair.mk (TokenRecord.mk false false) (TokenRecord.mk true false)))) rfl
  · refine ⟨rfl, ?_⟩
    exact (C7_recv_timeout_overflow_fallback
      (ChanState.normal (BufChan.mk (Queue.mk none false ([] : List Nat)) TokenPair.init))
      []).2.1
      (ChanState.normal (BufChan.mk (Queue.mk none false []) TokenPair.init)) rfl

/-- C10: `recv_timeout` performs an optimistic `try_recv` before the
deadline is even computed: an already-available value is returned as
`Ok(v)` and an already-disconnected channel as `Disconnected`, for any
flavor and regardless of the duration (`oflow` and the event trace are
arbitrary, covering a zero duration as well). -/
theorem C10_recv_timeout_initial_try_recv {T : Type} (oflow : Bool)
    (evs : List (ChanState T × Bool)) (c : ChanState T) :
    (∀ v c1, Receiver.try_recv c = some (Except.ok v, c1) →
      Receiver.recv_timeout oflow evs c = some (Except.ok v, c1)) ∧
    (∀ c1, Receiver.try_recv c = some (Except.error TryRecvError.Disconnected, c1) →
      Receiver.recv_timeout oflow evs c =
        some (Except.error RecvTimeoutError.Disconnected, c1)) := by
  constructor
  · intro v c1 h
    unfold Receiver.recv_timeout
    rw [h]
  · intro c1 h
    unfold Receiver.recv_timeout
    rw [h]

/-- C10 witness: a buffered receiver holding `5` returns `Ok 5` at once;
a disconnected rendezvous receiver returns `Disconnected` at once. -/
theorem C10_recv_timeout_initial_try_recv_witness :
    Receiver.recv_timeout false []
      (ChanState.normal (BufChan.mk (Queue.mk none false [5]) TokenPair.init)) =
      some (Except.ok 5,
        ChanState.normal (BufChan.mk (Queue.mk none false [])
          (TokenPair.mk (TokenRecord.mk true false) (TokenRecord.mk true true)))) ∧
    Receiver.recv_timeout true []
      (ChanState.rendezvous (RChan.mk EMPTY (none : Option Nat)
        (TokenPair.mk (TokenRecord.mk false false) (TokenRecord.mk true false)))) =
      some (Except.error RecvTimeoutError.Disconnected,
        ChanState.rendezvous (RChan.mk EMPTY none
          (TokenPair.mk (TokenRecord.mk false false) (TokenRecord.mk true false)))) :=
  ⟨(C10_recv_timeout_initial_try_recv false []
      (ChanState.normal (BufChan.mk (Queue.mk none false [5]) TokenPair.init))).1 5
      (ChanState.normal (BufChan.mk (Queue.mk none false [])
        (TokenPair.mk (TokenRecord.mk true false) (TokenRecord.mk true true)))) rfl,
   (C10_recv_timeout_initial_try_recv true []
      (ChanState.rendezvous (RChan.mk EMPTY (none : Option Nat)
        (TokenPair.mk (TokenRecord.mk false false) (TokenRecord.mk true false))))).2
      (ChanState.rendezvous (RChan.mk EMPTY none
        (TokenPair.mk (TokenRecord.mk false false) (TokenRecord.mk true false)))) rfl⟩

end Mpsc
